import Mathlib

/-!
Verification of the AmazonAffiliatedBot ingestion-and-qualification pipeline.

This file is a shallow embedding of the pipeline implemented in
`scraper.py` (class `DealScraper`) and `link_validator.py` (class
`LinkValidator`), together with proofs settling the frozen claims about it.

Modelling conventions, used throughout:
* Python strings are `String`/`List Char`; all regular-expression searches
  from the source are reimplemented as explicit leftmost-match scanners over
  `List Char` (Python's `re.search` semantics: the match at the leftmost
  feasible start position wins).  `\d` and `\s` are modelled as ASCII digits
  and Unicode whitespace via `Char.isDigit`/`Char.isWhitespace`.
* Python `float` is idealised as `Rat` (exact rational arithmetic); the
  numeric literals 4.5, 4.0, 3.5 from the source are written `mkRat 9 2`,
  `(4 : Rat)`, `mkRat 7 2` so that comparisons evaluate in the kernel.
* Python `datetime` values are seconds as `Int`; `timedelta(hours=h)` is
  `3600 * h`; `datetime.now()` is an explicit `now` parameter.
* Network I/O is abstracted as explicit outcome streams handed to the
  retry loops; logging calls are dropped (they do not affect results).
* BeautifulSoup CSS-selector lookups (`_extract_text_by_selectors` and the
  various `find`/`find_all` calls) are abstracted as fields of an `Element`
  record carrying the text each selector chain would produce; the logic
  that combines, validates and falls back between those results is embedded
  faithfully.
-/

namespace AmazonBot

/-! ## Character-list utilities (regex scanner building blocks) -/

/-- Predicate `charsBeginWith pat s`: true when `pat` is an initial segment of `s`. -/
def charsBeginWith : List Char → List Char → Bool
  | [], _ => true
  | _ :: _, [] => false
  | p :: ps, c :: cs => p == c && charsBeginWith ps cs

/-- substring containment on char lists (Python `pat in s`). -/
def charsContainSub (pat : List Char) : List Char → Bool
  | [] => charsBeginWith pat []
  | c :: cs => charsBeginWith pat (c :: cs) || charsContainSub pat cs

/-- Python `pat in s` on strings. -/
def strContains (s pat : String) : Bool :=
  charsContainSub pat.data s.data

/-- Python `s.startswith(pat)` on strings. -/
def strBeginsWith (s pat : String) : Bool :=
  charsBeginWith pat.data s.data

/-- Python `s.lower()` (ASCII case folding). -/
def strLower (s : String) : String :=
  String.mk (s.data.map Char.toLower)

/-- Python `s.strip()`: drop whitespace from both ends. -/
def trimChars (s : List Char) : List Char :=
  ((s.dropWhile Char.isWhitespace).reverse.dropWhile Char.isWhitespace).reverse

/-- Python `s.strip()` on strings. -/
def strStrip (s : String) : String :=
  String.mk (trimChars s.data)

/-- numeric value of a run of ASCII digits (`int(run)` / `float(run)` on all-digit runs). -/
def digitsToNat (ds : List Char) : Nat :=
  ds.foldl (fun acc c => acc * 10 + (c.toNat - 48)) 0

/-- Splitter `breakAt p s = (before, rest)` where `rest` starts at the first char
satisfying `p` (or is `[]`); `before ++ rest = s`. -/
def breakAt (p : Char → Bool) : List Char → List Char × List Char
  | [] => ([], [])
  | c :: cs =>
    if p c then ([], c :: cs)
    else
      let r := breakAt p cs
      (c :: r.1, r.2)

/-! ## Field parsers from `scraper.py` -/

/-- Scanner for `re.search(r'(\d+)\s*%', text)` (used by
`_extract_discount_percentage`, scraper.py:646): leftmost digit run followed
by optional whitespace and a percent sign; returns the captured digit run. -/
def scanPercentLoose : List Char → Option (List Char)
  | [] => none
  | c :: cs =>
    if c.isDigit then
      let run := (c :: cs).takeWhile Char.isDigit
      let rest := (c :: cs).dropWhile Char.isDigit
      match rest.dropWhile Char.isWhitespace with
      | '%' :: _ => some run
      | _ => scanPercentLoose cs
    else scanPercentLoose cs

/-- Embedding of `DealScraper._extract_discount_percentage` (scraper.py:640-653): the first
"N%" token's numeric value, else 0.  Python returns `float(...)` of an integer
digit string; the value is represented as `Nat`. -/
def extract_discount_percentage (discount_text : String) : Nat :=
  match scanPercentLoose discount_text.data with
  | some run => digitsToNat run
  | none => 0

/-- Scanner for `re.search(r'(\d+)%', text)` (used by `_clean_discount`,
scraper.py:582): like `scanPercentLoose` but with no whitespace allowed. -/
def scanPercentTight : List Char → Option (List Char)
  | [] => none
  | c :: cs =>
    if c.isDigit then
      match (c :: cs).dropWhile Char.isDigit with
      | '%' :: _ => some ((c :: cs).takeWhile Char.isDigit)
      | _ => scanPercentTight cs
    else scanPercentTight cs

/-- Embedding of `DealScraper._clean_discount` (scraper.py:579-585). -/
def clean_discount (discount_text : String) : String :=
  if discount_text = "" then ""
  else
    match scanPercentTight discount_text.data with
    | some run => String.mk run ++ "% off"
    | none => discount_text.take 20

/-- Scanner for `re.search(r'[\d,]+\.?\d*', text)` on comma-free text (used by
`_clean_price`, scraper.py:574): leftmost digit run, optionally followed by a
dot and more digits. -/
def scanPriceToken : List Char → Option (List Char)
  | [] => none
  | c :: cs =>
    if c.isDigit then
      let ip := (c :: cs).takeWhile Char.isDigit
      match (c :: cs).dropWhile Char.isDigit with
      | '.' :: rs => some (ip ++ '.' :: rs.takeWhile Char.isDigit)
      | _ => some ip
    else scanPriceToken cs

/-- Embedding of `DealScraper._clean_price` (scraper.py:570-577). -/
def clean_price (price_text : String) : String :=
  if price_text = "" then "Price not available"
  else
    match scanPriceToken (price_text.data.filter (fun c => c ≠ ',')) with
    | some tok => "$" ++ String.mk tok
    | none => price_text.take 50

/-- Parse of a `(\d+\.?\d*)` group at the head of `s`: an integer part
(at least one digit), an optional dot and an optional fractional part;
returns `float(group)` as an exact rational together with the rest of the
input after the match. -/
def numTokenHere (s : List Char) : Option (Rat × List Char) :=
  match s with
  | [] => none
  | c :: _ =>
    if c.isDigit then
      let ip := s.takeWhile Char.isDigit
      match s.dropWhile Char.isDigit with
      | '.' :: rs =>
        let fp := rs.takeWhile Char.isDigit
        some (mkRat (digitsToNat ip * 10 ^ fp.length + digitsToNat fp) (10 ^ fp.length),
              rs.dropWhile Char.isDigit)
      | rest => some ((digitsToNat ip : Rat), rest)
    else none

/-- Scanner for `re.search` of number-then-literal rating patterns
(`(\d+\.?\d*)\s*out of`, `(\d+\.?\d*)\s*stars?`, scraper.py:594-595):
leftmost number followed by optional whitespace and the literal `lit`. -/
def scanNumBeforeLit (lit : List Char) : List Char → Option Rat
  | [] => none
  | c :: cs =>
    match numTokenHere (c :: cs) with
    | some (v, rest) =>
      if charsBeginWith lit (rest.dropWhile Char.isWhitespace) then some v
      else scanNumBeforeLit lit cs
    | none => scanNumBeforeLit lit cs

/-- Scanner for `re.search(r'(\d+\.?\d*)\s*\/\s*5', text)` (scraper.py:596). -/
def scanNumSlashFive : List Char → Option Rat
  | [] => none
  | c :: cs =>
    match numTokenHere (c :: cs) with
    | some (v, rest) =>
      match rest.dropWhile Char.isWhitespace with
      | '/' :: r2 =>
        match r2.dropWhile Char.isWhitespace with
        | '5' :: _ => some v
        | _ => scanNumSlashFive cs
      | _ => scanNumSlashFive cs
    | none => scanNumSlashFive cs

/-- one char of the `[:\s]` class. -/
def isColonOrSpace (c : Char) : Bool := c == ':' || c.isWhitespace

/-- Scanner for `re.search(r'rating[:\s]+(\d+\.?\d*)', text)` (scraper.py:597). -/
def scanRatingColon : List Char → Option Rat
  | [] => none
  | c :: cs =>
    if charsBeginWith "rating".data (c :: cs) then
      let rest := (c :: cs).drop 6
      if (rest.takeWhile isColonOrSpace).length ≥ 1 then
        match numTokenHere (rest.dropWhile isColonOrSpace) with
        | some (v, _) => some v
        | none => scanRatingColon cs
      else scanRatingColon cs
    else scanRatingColon cs

/-- Scanner for `re.search(r'(\d+\.?\d*)', text)` (scraper.py:598): the
leftmost bare number. -/
def scanFirstNum : List Char → Option Rat
  | [] => none
  | c :: cs =>
    match numTokenHere (c :: cs) with
    | some (v, _) => some v
    | none => scanFirstNum cs

/-- keep a pattern's match only when its value lies in [0, 5]
(scraper.py:605-608); an out-of-range match falls through to the next
pattern. -/
def ratingCandidate (r : Option Rat) : Option Rat :=
  match r with
  | some v => if 0 ≤ v ∧ v ≤ 5 then some v else none
  | none => none

/-- first pattern producing an in-range value wins; else 0.0. -/
def firstValidRating : List (Option Rat) → Rat
  | [] => 0
  | r :: rs =>
    match ratingCandidate r with
    | some v => v
    | none => firstValidRating rs

/-- Embedding of `DealScraper._extract_rating` (scraper.py:587-612): the five patterns are
tried in order against the lowercased text. -/
def extract_rating (rating_text : String) : Rat :=
  if rating_text = "" then 0
  else
    let t := (strLower rating_text).data
    firstValidRating
      [scanNumBeforeLit "out of".data t,
       scanNumBeforeLit "star".data t,
       scanNumSlashFive t,
       scanRatingColon t,
       scanFirstNum t]

/-- one char of the `[\d.]` class. -/
def isDigitOrDot (c : Char) : Bool := c.isDigit || c == '.'

/-- Scanner for `re.search(r'([\d.]+)\s*[kK]', text)` (scraper.py:623):
leftmost run of digits/dots followed by optional whitespace and `k`/`K`;
returns the captured run. -/
def scanKGroup : List Char → Option (List Char)
  | [] => none
  | c :: cs =>
    if isDigitOrDot c then
      let run := (c :: cs).takeWhile isDigitOrDot
      match ((c :: cs).dropWhile isDigitOrDot).dropWhile Char.isWhitespace with
      | k :: _ =>
        if k == 'k' || k == 'K' then some run else scanKGroup cs
      | [] => scanKGroup cs
    else scanKGroup cs

/-- Python `float(run)` on a digits-and-dots run: defined exactly when the
run has at most one dot and at least one digit; `none` models the
`ValueError` swallowed by the `except` clause (scraper.py:627-628). -/
def parseFloatRun (run : List Char) : Option Rat :=
  let ip := run.takeWhile Char.isDigit
  match run.dropWhile Char.isDigit with
  | [] => if ip = [] then none else some (digitsToNat ip)
  | '.' :: fp =>
    if fp.all Char.isDigit ∧ (ip ≠ [] ∨ fp ≠ []) then
      some (mkRat (digitsToNat ip * 10 ^ fp.length + digitsToNat fp) (10 ^ fp.length))
    else none
  | _ => none

/-- Scanner for `re.search(r'([\d,]+)', text)` on comma-free text
(scraper.py:631): the leftmost digit run. -/
def scanDigitRun : List Char → Option (List Char)
  | [] => none
  | c :: cs =>
    if c.isDigit then some ((c :: cs).takeWhile Char.isDigit)
    else scanDigitRun cs

/-- the plain-number fallback of `_extract_review_count` (scraper.py:631-638). -/
def reviewNumberMatch (s : List Char) : Nat :=
  match scanDigitRun s with
  | some run => digitsToNat run
  | none => 0

/-- Embedding of `DealScraper._extract_review_count` (scraper.py:614-638): strip commas
and surrounding whitespace, try the `k`-suffix form (×1000, truncated to an
integer), else the first plain number, else 0. -/
def extract_review_count (review_text : String) : Nat :=
  if review_text = "" then 0
  else
    let clean := trimChars (review_text.data.filter (fun c => c ≠ ','))
    match scanKGroup clean with
    | some run =>
      match parseFloatRun run with
      | some v => (Rat.floor (v * 1000)).toNat
      | none => reviewNumberMatch clean
    | none => reviewNumberMatch clean

/-! ## Candidate records and HTML elements -/

/-- Modelled from the spec: the `Product` dataclass lives in `models.py`,
which is not among the provided sources; its fields are exactly those the
scraper constructs (scraper.py:500-511) and the spec's data model (§3):
title, price, discount, link, identifier (`asin`), category, rating
(float, here `Rat`), review_count, description, image_url. -/
structure Product where
  title : String := ""
  price : String := ""
  discount : String := ""
  link : String := ""
  category : String := ""
  asin : String := ""
  rating : Rat := 0
  review_count : Nat := 0
  description : String := ""
  image_url : String := ""
deriving Repr, DecidableEq

/-- An HTML element as seen by `_extract_product_data` (scraper.py:351-517).
Each field abstracts the outcome of one BeautifulSoup lookup on the element:
`dataAsin` is `element.get('data-asin')`; `hrefs` the `href` values of the
element's links in document order; `content` the serialised element
(`str(element)`); the `…Text` fields the result of the corresponding
`_extract_text_by_selectors` chain (`none` when no selector produced
non-empty text); `firstLinkText` the text of `element.find('a', href=True)`;
`starLabels` the `aria-label` values of star-class descendants;
`reviewLinkTexts` the texts of review/ratings links; `imageExtracted` the
result of `_extract_image_url` (pure DOM/URL normalisation, no claim touches
it, so it is carried as data). -/
structure Element where
  dataAsin : Option String := none
  hrefs : List String := []
  content : String := ""
  titleText : Option String := none
  firstLinkText : Option String := none
  priceText : Option String := none
  priceSpanText : Option String := none
  discountText : Option String := none
  badgeText : Option String := none
  ratingText : Option String := none
  starLabels : List String := []
  reviewText : Option String := none
  reviewLinkTexts : List String := []
  imageExtracted : String := ""
  descText : Option String := none
deriving Repr, DecidableEq

/-! ## Identifier (ASIN) extraction -/

/-- one char of the `[A-Z0-9]` class. -/
def isAsinChar (c : Char) : Bool := c.isUpper || c.isDigit

/-- Scanner for `re.search(marker + r'([A-Z0-9]{10})', s)` where `marker` is
a literal (`/dp/` or `/gp/product/`, scraper.py:361-374): the leftmost
occurrence of the marker followed by ten `[A-Z0-9]` characters; returns
the captured ten characters. -/
def scanMarkerAsin (marker : List Char) : List Char → Option (List Char)
  | [] => none
  | c :: cs =>
    if charsBeginWith marker (c :: cs) then
      let run := ((c :: cs).drop marker.length).take 10
      if run.length = 10 && run.all isAsinChar then some run
      else scanMarkerAsin marker cs
    else scanMarkerAsin marker cs

/-- the per-link loop of scraper.py:358-368: for each `href`, try the
`/dp/…` pattern, then the `/gp/product/…` pattern; first hit wins. -/
def asinFromHrefs : List String → Option String
  | [] => none
  | h :: hs =>
    match scanMarkerAsin "/dp/".data h.data with
    | some run => some (String.mk run)
    | none =>
      match scanMarkerAsin "/gp/product/".data h.data with
      | some run => some (String.mk run)
      | none => asinFromHrefs hs

/-- the ASIN candidate of scraper.py:354-374: the `data-asin` attribute when
present and non-empty, else the first match over the element's link hrefs,
else a `/dp/…` match over the serialised element. -/
def extract_asin_candidate (element : Element) : Option String :=
  let fromAttr : Option String :=
    match element.dataAsin with
    | some a => if a = "" then none else some a
    | none => none
  match fromAttr with
  | some a => some a
  | none =>
    match asinFromHrefs element.hrefs with
    | some a => some a
    | none => (scanMarkerAsin "/dp/".data element.content.data).map String.mk

/-! ## Title, category, description -/

/-- Python `not title or len(title.strip()) < 5` on an optional string
(scraper.py:394,400). -/
def titleBad : Option String → Bool
  | none => true
  | some t => t == "" || (strStrip t).length < 5

/-- the title logic of scraper.py:379-401: selector-chain result, falling
back to the first link's text, discarded if still empty or shorter than
five characters after stripping. -/
def extract_title (element : Element) : Option String :=
  let t1 :=
    if titleBad element.titleText then
      match element.firstLinkText with
      | some s => some s
      | none => element.titleText
    else element.titleText
  if titleBad t1 then none else t1

/-- the keyword table of `_determine_category` (scraper.py:724-731), in
insertion order. -/
def category_map : List (String × List String) :=
  [("electronics", ["phone", "tablet", "laptop", "speaker", "headphone", "camera", "tv", "smart", "wireless"]),
   ("home", ["kitchen", "cooking", "chair", "table", "lamp", "bed", "pillow", "blanket"]),
   ("fashion", ["shirt", "pants", "dress", "shoes", "jacket", "jeans", "clothing"]),
   ("sports", ["fitness", "exercise", "gym", "workout", "sports", "running", "yoga"]),
   ("beauty", ["beauty", "skincare", "makeup", "hair", "cosmetic", "shampoo"]),
   ("books", ["book", "kindle", "novel", "textbook", "magazine"])]

/-- first category whose keyword list hits the lowercased title. -/
def categoryLookup (t : String) : List (String × List String) → String
  | [] => "general"
  | (cat, kws) :: rest =>
    if kws.any (fun k => strContains t k) then cat else categoryLookup t rest

/-- Embedding of `DealScraper._determine_category` (scraper.py:720-737); the `element`
parameter of the source is unused there and dropped here. -/
def determine_category (title : String) : String :=
  categoryLookup (strLower title) category_map

/-- Embedding of `DealScraper._extract_description` (scraper.py:739-751): selector text
capped at 200 characters, else a fixed boilerplate sentence. -/
def extract_description (element : Element) : String :=
  match element.descText with
  | some d => if d ≠ "" then d.take 200 else
      "Amazon product with great reviews and competitive pricing."
  | none => "Amazon product with great reviews and competitive pricing."

/-! ## Per-element extraction -/

/-- Python truthiness of an optional string. -/
def optStrFalsy : Option String → Bool
  | none => true
  | some s => s == ""

/-- the star-elements fallback loop of scraper.py:455-462: first positive
rating parsed from an `aria-label`, else 0 (`_extract_rating` is
non-negative, and the loop leaves 0 in place when no label parses
positive). -/
def starFold : List String → Rat
  | [] => 0
  | l :: ls =>
    let r := if l ≠ "" then extract_rating l else 0
    if 0 < r then r else starFold ls

/-- the review-links fallback loop of scraper.py:474-480: first positive
count parsed from a link text, else 0. -/
def reviewLinkFold : List String → Nat
  | [] => 0
  | t :: ts =>
    let c := extract_review_count t
    if 0 < c then c else reviewLinkFold ts

/-- Embedding of `DealScraper._extract_product_data` (scraper.py:351-517).  Returns
`none` exactly when the source returns `None`: no identifier candidate, an
identifier candidate that is falsy or not of length 10, or no usable title.
All other fields have defaults and cannot fail. -/
def extract_product_data (element : Element) (_source_url : String) : Option Product :=
  match extract_asin_candidate element with
  | none => none
  | some asin =>
    if asin = "" ∨ asin.length ≠ 10 then none
    else
      match extract_title element with
      | none => none
      | some title =>
        let price1 : Option String :=
          if optStrFalsy element.priceText then
            match element.priceSpanText with
            | some t => some t
            | none => element.priceText
          else element.priceText
        let priceStr :=
          match price1 with
          | some p => if p ≠ "" then clean_price p else "Price not available"
          | none => "Price not available"
        let discount1 : Option String :=
          match element.badgeText with
          | some b =>
            if b ≠ "" ∧ optStrFalsy element.discountText then some b
            else element.discountText
          | none => element.discountText
        let discountStr :=
          match discount1 with
          | some d => if d ≠ "" then clean_discount d else ""
          | none => ""
        let rating0 : Rat :=
          match element.ratingText with
          | some t => extract_rating t
          | none => 0
        let rating1 := if rating0 = 0 then starFold element.starLabels else rating0
        let reviews0 : Nat :=
          match element.reviewText with
          | some t => extract_review_count t
          | none => 0
        let reviews1 := if reviews0 = 0 then reviewLinkFold element.reviewLinkTexts else reviews0
        some { title := strStrip title,
               price := priceStr,
               discount := discountStr,
               link := "https://www.amazon.com/dp/" ++ asin,
               category := determine_category title,
               asin := asin,
               rating := rating1,
               review_count := reviews1,
               description := extract_description element,
               image_url := element.imageExtracted }

/-! ## Deduplication (scraper.py:89-99) -/

/-- the dedup loop of `scrape_real_amazon_deals` (scraper.py:93-96): keep a
deal when its `asin` is truthy (non-empty) and not yet seen; `seen` is the
`seen_asins` set. -/
def dedup_deals_go (seen : List String) : List Product → List Product
  | [] => []
  | d :: ds =>
    if d.asin ≠ "" ∧ d.asin ∉ seen then d :: dedup_deals_go (d.asin :: seen) ds
    else dedup_deals_go seen ds

/-- one deduplication pass over the concatenated candidates of a run. -/
def dedup_deals (all_deals : List Product) : List Product :=
  dedup_deals_go [] all_deals

/-- the first-seen bookkeeping of scraper.py:97-99, applied to each kept
deal in order: record `now` for an identifier not yet in the map, never
overwriting (Python dict insertion appends at the end). -/
def update_timestamps (now : Int) : List (String × Int) → List Product → List (String × Int)
  | ts, [] => ts
  | ts, d :: ds =>
    if (ts.lookup d.asin).isSome then update_timestamps now ts ds
    else update_timestamps now (ts ++ [(d.asin, now)]) ds

/-! ## Quality filter tiers (scraper.py:107-134, 655-672) -/

/-- the strict-tier test of `_filter_catchy_deals` (scraper.py:664-667) with
the thresholds of scraper.py:50-52: `MIN_DISCOUNT_PERCENT = 20`,
`MIN_RATING = 4.0`, `MIN_REVIEWS = 50`. -/
def strictPred (d : Product) : Bool :=
  decide (extract_discount_percentage d.discount ≥ 20) &&
  decide (d.rating ≥ 4) &&
  decide (d.review_count ≥ 50)

/-- Embedding of `DealScraper._filter_catchy_deals` (scraper.py:655-672): the loop keeps
exactly the deals passing the strict test, in order. -/
def filter_catchy_deals (deals : List Product) : List Product :=
  deals.filter strictPred

/-- the relaxed-tier test of scraper.py:121 (thresholds 10 / 3.5 / 10, or
4.0 / 20; `mkRat 7 2` is the source's 3.5). -/
def relaxedPred (d : Product) : Bool :=
  (decide (extract_discount_percentage d.discount ≥ 10) &&
   decide (d.rating ≥ mkRat 7 2) &&
   decide (d.review_count ≥ 10)) ||
  (decide (d.rating ≥ 4) && decide (d.review_count ≥ 20))

/-- the last-resort test of scraper.py:130: any rating or any review. -/
def lastResortPred (d : Product) : Bool :=
  decide (0 < d.rating) || decide (0 < d.review_count)

/-- the tier ladder of `scrape_real_amazon_deals` (scraper.py:103-134),
applied to the deduplicated list: an empty input returns immediately;
otherwise the strict filter, then — only when it is empty — the relaxed
filter, then the last-resort filter; an empty final selection returns the
empty list. -/
def tiered_filter (unique_deals : List Product) : List Product :=
  if unique_deals.length = 0 then []
  else
    let catchy := filter_catchy_deals unique_deals
    let catchy2 :=
      if catchy.length = 0 ∧ 0 < unique_deals.length then
        let relaxed := unique_deals.filter relaxedPred
        if relaxed.length ≠ 0 then relaxed
        else unique_deals.filter lastResortPred
      else catchy
    if catchy2.length = 0 then [] else catchy2

/-! ## Scoring (scraper.py:674-718)

`_score_deal` accumulates `score += …` over five independent blocks; each
block is embedded as one function and the accumulation as their sum.  Every
contribution is a non-negative integer, so the Python float score is
represented as `Nat`.  `deal_timestamps` is the first-seen map (identifier
to seconds), `now` the value of `datetime.now()` in seconds; the
`timedelta` thresholds 1 h / 6 h / 24 h are 3600 / 21600 / 86400 s. -/

/-- scraper.py:678-680: `min(discount_pct * 2, 50)`. -/
def score_discount (d : Product) : Nat :=
  min (extract_discount_percentage d.discount * 2) 50

/-- scraper.py:682-689: rating bands (4.5 → 30, 4.0 → 20, 3.5 → 10;
`mkRat 9 2` and `mkRat 7 2` are the source's 4.5 and 3.5). -/
def score_rating (d : Product) : Nat :=
  if d.rating ≥ mkRat 9 2 then 30
  else if d.rating ≥ 4 then 20
  else if d.rating ≥ mkRat 7 2 then 10
  else 0

/-- scraper.py:691-700: review-count bands. -/
def score_reviews (d : Product) : Nat :=
  if d.review_count ≥ 1000 then 20
  else if d.review_count ≥ 500 then 15
  else if d.review_count ≥ 100 then 10
  else if d.review_count ≥ 50 then 5
  else 0

/-- scraper.py:702-710: freshness bonus, only when the identifier is in the
first-seen map. -/
def score_freshness (deal_timestamps : List (String × Int)) (now : Int) (d : Product) : Nat :=
  match deal_timestamps.lookup d.asin with
  | some t =>
    if now - t < 3600 then 10
    else if now - t < 21600 then 7
    else if now - t < 86400 then 5
    else 0
  | none => 0

/-- scraper.py:712-716: +5 when the discount text mentions a
lightning/limited badge. -/
def score_badge (d : Product) : Nat :=
  if d.discount = "" then 0
  else if strContains (strLower d.discount) "lightning" ||
          strContains (strLower d.discount) "limited" then 5
  else 0

/-- Embedding of `DealScraper._score_deal` (scraper.py:674-718). -/
def score_deal (deal_timestamps : List (String × Int)) (now : Int) (d : Product) : Nat :=
  score_discount d + score_rating d + score_reviews d +
    score_freshness deal_timestamps now d + score_badge d

/-! ## Ranking (scraper.py:136-141) -/

/-- the score-and-sort step of `scrape_real_amazon_deals`
(scraper.py:137-141): pair each deal with its score, sort descending by
score, return the deals.  Python's `list.sort` is a stable sort; with
`reverse=True` it keeps the original relative order of equal keys, which is
exactly `mergeSort` under the total preorder `b.2 ≤ a.2`.  The subsequent
`[:max_deals_per_source * len(amazon_sources)]` cap (scraper.py:141) is the
caller's truncation and not part of the ranking. -/
def rank_deals (deal_timestamps : List (String × Int)) (now : Int)
    (catchy_deals : List Product) : List Product :=
  let scored := catchy_deals.map (fun d => (d, score_deal deal_timestamps now d))
  (scored.mergeSort (fun a b => decide (b.2 ≤ a.2))).map Prod.fst

/-! ## Fetch retry loop (scraper.py:224-287) -/

/-- outcome of one `session.get` in `_scrape_source`: an HTTP response
(status and body — the body is only consulted on status 200), a timeout
(`asyncio.TimeoutError`), or any other exception. -/
inductive AttemptOutcome where
  | httpResponse (statusCode : Nat) (body : String)
  | timedOut
  | connFailed
deriving Repr, DecidableEq

/-- why `_scrape_source` slept before a retry. -/
inductive SleepTag where
  | rateLimited
  | httpOther
  | shortBody
  | blocked
  | timeoutRetry
  | errRetry
deriving Repr, DecidableEq

/-- observable result of a `_scrape_source` run: the returned deals, the
`asyncio.sleep` calls issued (tag and duration, in order) and the number of
attempts consumed. -/
structure ScrapeRun where
  deals : List Product
  sleeps : List (SleepTag × Nat)
  attempts : Nat
deriving Repr, DecidableEq

/-- the soft-block test of scraper.py:261. -/
def looksBlocked (html : String) : Bool :=
  strContains (strLower html) "captcha" ||
  strContains (strLower html) "robot" ||
  strContains (strLower html) "access denied"

/-- the retry loop of `_scrape_source` (scraper.py:230-287).  `net k` is the
outcome of the `session.get` on attempt `k`; `parse` abstracts
`_parse_amazon_deals` on the fetched body; `attempt`/`fuel` are the loop
index and the attempts left (`attempt < max_retries - 1` is `1 < fuel`);
`delay` is the mutable `retry_delay`.  On 429 the delay is doubled (capped
at 60) *before* sleeping; on a soft block the sleep is `delay * 2` without
updating `delay`; other retries sleep `delay` unchanged.  The `fuel = 0`
base is the unreachable `return []` after the loop (scraper.py:287). -/
def scrape_source_go (net : Nat → AttemptOutcome) (parse : String → List Product) :
    (attempt fuel delay : Nat) → List (SleepTag × Nat) → ScrapeRun
  | attempt, 0, _, log => { deals := [], sleeps := log.reverse, attempts := attempt }
  | attempt, fuel + 1, delay, log =>
    match net attempt with
    | AttemptOutcome.httpResponse status body =>
      if status = 429 then
        let delay2 := min (delay * 2) 60
        if 0 < fuel then
          scrape_source_go net parse (attempt + 1) fuel delay2 ((SleepTag.rateLimited, delay2) :: log)
        else { deals := [], sleeps := log.reverse, attempts := attempt + 1 }
      else if status ≠ 200 then
        if 0 < fuel then
          scrape_source_go net parse (attempt + 1) fuel delay ((SleepTag.httpOther, delay) :: log)
        else { deals := [], sleeps := log.reverse, attempts := attempt + 1 }
      else if body.length < 1000 then
        if 0 < fuel then
          scrape_source_go net parse (attempt + 1) fuel delay ((SleepTag.shortBody, delay) :: log)
        else { deals := [], sleeps := log.reverse, attempts := attempt + 1 }
      else if looksBlocked body then
        if 0 < fuel then
          scrape_source_go net parse (attempt + 1) fuel delay ((SleepTag.blocked, delay * 2) :: log)
        else { deals := [], sleeps := log.reverse, attempts := attempt + 1 }
      else { deals := parse body, sleeps := log.reverse, attempts := attempt + 1 }
    | AttemptOutcome.timedOut =>
      if 0 < fuel then
        scrape_source_go net parse (attempt + 1) fuel delay ((SleepTag.timeoutRetry, delay) :: log)
      else { deals := [], sleeps := log.reverse, attempts := attempt + 1 }
    | AttemptOutcome.connFailed =>
      if 0 < fuel then
        scrape_source_go net parse (attempt + 1) fuel delay ((SleepTag.errRetry, delay) :: log)
      else { deals := [], sleeps := log.reverse, attempts := attempt + 1 }

/-- Embedding of `DealScraper._scrape_source` (scraper.py:224-287): `max_retries = 3`,
initial `retry_delay = 5`. -/
def scrape_source (net : Nat → AttemptOutcome) (parse : String → List Product) : ScrapeRun :=
  scrape_source_go net parse 0 3 5 []

/-! ## Link validator (link_validator.py) -/

/-- Embedding of `LinkValidationResult` (link_validator.py:10-18).  `response_time` is a
wall-clock float in the source; elapsed real time is not modelled, so the
embedded validator reports 0 (the field itself is kept, since the
statistics aggregate over it). -/
structure LinkValidationResult where
  url : String
  is_valid : Bool
  status_code : Option Nat := none
  error_message : Option String := none
  redirect_url : Option String := none
  response_time : Rat := 0
deriving Repr, DecidableEq

/-- the components of `urllib.parse.urlparse` the validator reads. -/
structure UrlParts where
  scheme : String
  netloc : String
  path : String
  query : String
deriving Repr, DecidableEq

/-- one char of RFC scheme bodies (`[a-zA-Z0-9+.-]`). -/
def schemeCharOk (c : Char) : Bool :=
  c.isAlpha || c.isDigit || c == '+' || c == '-' || c == '.'

/-- Embedding of `urllib.parse.urlparse`, restricted to the fields used here: the
fragment is cut at the first `#`; a leading `letter(letter|digit|+|-|.)*:`
is the (lowercased) scheme; a following `//` starts the netloc, which runs
to the next `/` or `?`; the query is everything after the first `?`.
(Exotic `urlparse` corner cases — params segments, bytes handling — are not
modelled.) -/
def url_parse (url : String) : UrlParts :=
  let cs := (breakAt (fun c => c == '#') url.data).1
  let br := breakAt (fun c => c == ':') cs
  let hasScheme : Bool :=
    match br.2, br.1 with
    | _ :: _, h :: t => h.isAlpha && t.all schemeCharOk
    | _, _ => false
  let scheme := if hasScheme then String.mk (br.1.map Char.toLower) else ""
  let rest := if hasScheme then br.2.tail else cs
  match rest with
  | '/' :: '/' :: r =>
    let nb := breakAt (fun c => c == '/' || c == '?') r
    let pq := breakAt (fun c => c == '?') nb.2
    { scheme := scheme, netloc := String.mk nb.1,
      path := String.mk pq.1, query := String.mk pq.2.tail }
  | _ =>
    let pq := breakAt (fun c => c == '?') rest
    { scheme := scheme, netloc := "",
      path := String.mk pq.1, query := String.mk pq.2.tail }

/-- Embedding of `LinkValidator._is_valid_url_format` (link_validator.py:230-236):
`bool(parsed.scheme and parsed.netloc)`. -/
def is_valid_url_format (url : String) : Bool :=
  let p := url_parse url
  !(p.scheme == "") && !(p.netloc == "")

/-- the allow-list of link_validator.py:242-246. -/
def amazon_domains : List String :=
  ["amazon.com", "amazon.co.uk", "amazon.de", "amazon.fr",
   "amazon.it", "amazon.es", "amazon.ca", "amazon.com.mx",
   "amazon.com.br", "amazon.in", "amazon.co.jp", "amazon.com.au"]

/-- Scanner for `re.search(r'/(?:dp|gp/product)/([A-Z0-9]{10})', path)`
(link_validator.py:258-259): leftmost position where either marker is
followed by ten `[A-Z0-9]` characters. -/
def scanPathAsin : List Char → Option (List Char)
  | [] => none
  | c :: cs =>
    if charsBeginWith "/dp/".data (c :: cs) &&
       (((c :: cs).drop 4).take 10).length = 10 &&
       (((c :: cs).drop 4).take 10).all isAsinChar then
      some (((c :: cs).drop 4).take 10)
    else if charsBeginWith "/gp/product/".data (c :: cs) &&
       (((c :: cs).drop 12).take 10).length = 10 &&
       (((c :: cs).drop 12).take 10).all isAsinChar then
      some (((c :: cs).drop 12).take 10)
    else scanPathAsin cs

/-- Embedding of `LinkValidator._is_amazon_link` (link_validator.py:238-270): the host,
with an optional leading `www.`, must be allow-listed; when the path shows
a product-identifier segment, its shape is re-checked against
`^[A-Z0-9]{10}$` (always true of what the first pattern captured). -/
def is_amazon_link (url : String) : Bool :=
  let p := url_parse url
  let domain0 := strLower p.netloc
  let domain := if strBeginsWith domain0 "www." then domain0.drop 4 else domain0
  if amazon_domains.contains domain then
    match scanPathAsin p.path.data with
    | some run => decide (run.length = 10) && run.all isAsinChar
    | none => true
  else false

/-- hex digit value, for percent-decoding. -/
def hexDigitVal (c : Char) : Option Nat :=
  if c.isDigit then some (c.toNat - 48)
  else if 'a' ≤ c ∧ c ≤ 'f' then some (c.toNat - 87)
  else if 'A' ≤ c ∧ c ≤ 'F' then some (c.toNat - 55)
  else none

/-- Embedding of `urllib.parse.unquote_plus` on a query component: `+` becomes a space,
`%HH` becomes the character with that code (multi-byte UTF-8 percent
sequences are idealised bytewise), malformed escapes are left alone. -/
def unquotePlus : List Char → List Char
  | [] => []
  | '+' :: cs => ' ' :: unquotePlus cs
  | '%' :: a :: b :: cs =>
    match hexDigitVal a, hexDigitVal b with
    | some x, some y => Char.ofNat (16 * x + y) :: unquotePlus cs
    | _, _ => '%' :: unquotePlus (a :: b :: cs)
  | c :: cs => c :: unquotePlus cs

/-- Python `s.split('&')` on char lists. -/
def splitOnAmp : List Char → List (List Char)
  | [] => [[]]
  | c :: cs =>
    if c == '&' then [] :: splitOnAmp cs
    else
      match splitOnAmp cs with
      | p :: ps => (c :: p) :: ps
      | [] => [[c]]

/-- Embedding of `urllib.parse.parse_qsl` with default arguments on one query string:
split on `&`, keep only fields with a `=` and a non-empty raw value
(`keep_blank_values=False`), unquote names and values. -/
def qsPairs (query : String) : List (String × String) :=
  (splitOnAmp query.data).filterMap (fun piece =>
    let br := breakAt (fun c => c == '=') piece
    match br.2 with
    | '=' :: v =>
      if v = [] then none
      else some (String.mk (unquotePlus br.1), String.mk (unquotePlus v))
    | _ => none)

/-- Embedding of `LinkValidator.verify_affiliate_tag` (link_validator.py:272-299):
`params.get('tag', [])` takes the first `tag` value (dict order = first
occurrence). -/
def verify_affiliate_tag (url : String) (expected_tag : String) : Bool × String :=
  if url = "" ∨ expected_tag = "" then (false, "Missing URL or affiliate tag")
  else
    match (qsPairs (url_parse url).query).lookup "tag" with
    | none => (false, "No \x27tag\x27 parameter found in URL")
    | some actual =>
      if actual ≠ expected_tag then
        (false, "Tag mismatch: expected \x27" ++ expected_tag ++ "\x27, got \x27" ++ actual ++ "\x27")
      else (true, "Tag verified")

/-- outcome of one `session.get` inside `validate_link`: a response with
its final (post-redirect) URL, a timeout, or an `aiohttp.ClientError`. -/
inductive ProbeOutcome where
  | response (status : Nat) (finalUrl : String)
  | timedOut
  | clientFailed (msg : String)
deriving Repr, DecidableEq

/-- the success result of link_validator.py:110-116 and 132-138. -/
def mkValidResult (url : String) (status : Nat) (finalUrl : String) : LinkValidationResult :=
  { url := url, is_valid := true, status_code := some status,
    redirect_url := if finalUrl ≠ url then some finalUrl else none }

/-- the retry loop of `validate_link` (link_validator.py:89-182).  `net k`
is the outcome of the `k`-th `session.get` issued; each attempt consumes
one probe, plus a second one on status 405 (the full-GET fallback, whose
transport errors are caught by the same handlers).  `fuel` counts attempts
left (`attempt < max_retries` is `0 < fuel` after peeling one); affiliate-
tag verification (link_validator.py:100-107, 123-129) only logs a warning
and does not influence the returned result, so it does not appear here.
The `fuel = 0` base is the unreachable fall-through of the `for` loop. -/
def validate_link_go (net : Nat → ProbeOutcome) (url : String) :
    (k fuel : Nat) → LinkValidationResult
  | _, 0 => { url := url, is_valid := false, error_message := some "Request timeout" }
  | k, fuel + 1 =>
    match net k with
    | ProbeOutcome.response status finalUrl =>
      if status = 200 ∨ status = 206 ∨ status = 416 then
        mkValidResult url status finalUrl
      else if status = 405 then
        match net (k + 1) with
        | ProbeOutcome.response st2 final2 =>
          if st2 = 200 then mkValidResult url 200 final2
          else { url := url, is_valid := false, status_code := some st2,
                 error_message := some ("HTTP " ++ toString st2) }
        | ProbeOutcome.timedOut =>
          if 0 < fuel then validate_link_go net url (k + 2) fuel
          else { url := url, is_valid := false, error_message := some "Request timeout" }
        | ProbeOutcome.clientFailed e =>
          if 0 < fuel then validate_link_go net url (k + 2) fuel
          else { url := url, is_valid := false, error_message := some ("Client error: " ++ e) }
      else { url := url, is_valid := false, status_code := some status,
             error_message := some ("HTTP " ++ toString status) }
    | ProbeOutcome.timedOut =>
      if 0 < fuel then validate_link_go net url (k + 1) fuel
      else { url := url, is_valid := false, error_message := some "Request timeout" }
    | ProbeOutcome.clientFailed e =>
      if 0 < fuel then validate_link_go net url (k + 1) fuel
      else { url := url, is_valid := false, error_message := some ("Client error: " ++ e) }

/-- Embedding of `LinkValidator.validate_link` (link_validator.py:67-191): reject bad
format, reject non-marketplace links, then probe with
`max_retries + 1` attempts.  `expected_affiliate_tag` is carried for
interface fidelity; as in the source it never changes the result, it is
only ever logged. -/
def validate_link (net : Nat → ProbeOutcome) (_expected_affiliate_tag : Option String)
    (max_retries : Nat) (url : String) : LinkValidationResult :=
  if !is_valid_url_format url then
    { url := url, is_valid := false, error_message := some "Invalid URL format" }
  else if !is_amazon_link url then
    { url := url, is_valid := false, error_message := some "Not an Amazon link" }
  else validate_link_go net url 0 (max_retries + 1)

/-- the notion "the probe succeeds" of the retry loop
(link_validator.py:89-182): the success the loop reaches, if any, as a
`(recorded status, final URL)` pair.  A success is a direct response with
status 200, 206 or 416 on the attempt the loop is at, or a 200 answer to
the full-GET fallback issued on a 405 (recorded as status 200), and may be
reached after timeout/transport-error retries (each of which consumes an
attempt, a failed 405 fallback consuming the extra probe as well).  Any
other response status resolves to a failure (`none`), as does exhausting
the attempts. -/
def probeResolution (net : Nat → ProbeOutcome) : (k fuel : Nat) → Option (Nat × String)
  | _, 0 => none
  | k, fuel + 1 =>
    match net k with
    | ProbeOutcome.response status finalUrl =>
      if status = 200 ∨ status = 206 ∨ status = 416 then some (status, finalUrl)
      else if status = 405 then
        match net (k + 1) with
        | ProbeOutcome.response st2 final2 => if st2 = 200 then some (200, final2) else none
        | ProbeOutcome.timedOut => if 0 < fuel then probeResolution net (k + 2) fuel else none
        | ProbeOutcome.clientFailed _ => if 0 < fuel then probeResolution net (k + 2) fuel else none
      else none
    | ProbeOutcome.timedOut => if 0 < fuel then probeResolution net (k + 1) fuel else none
    | ProbeOutcome.clientFailed _ => if 0 < fuel then probeResolution net (k + 1) fuel else none

/-- the post-`gather` conversion loop of `validate_links_batch`
(link_validator.py:212-222): an exception raised by a task becomes a failed
entry for that URL. -/
def convertGathered (url : String) (r : Except String LinkValidationResult) :
    LinkValidationResult :=
  match r with
  | Except.ok res => res
  | Except.error e =>
    { url := url, is_valid := false, error_message := some ("Exception: " ++ e) }

/-- the fan-out of link_validator.py:209-222: one task per URL in input
order (`asyncio.gather` returns results positionally, so completion order
is irrelevant); `runTask u` is task `u`'s outcome — a result, or the
exception it raised. -/
def gatherConvert (runTask : String → Except String LinkValidationResult) :
    List String → List LinkValidationResult
  | [] => []
  | u :: us => convertGathered u (runTask u) :: gatherConvert runTask us

/-- Embedding of `LinkValidator.validate_links_batch` (link_validator.py:193-228). -/
def validate_links_batch (runTask : String → Except String LinkValidationResult)
    (urls : List String) : List LinkValidationResult :=
  if urls = [] then [] else gatherConvert runTask urls

/-! ## Validation statistics (link_validator.py:301-324) -/

/-- the non-empty payload of `get_validation_stats`; the source's `{}` for
an empty input is `none`. -/
structure ValidationStats where
  total_links : Nat
  valid_links : Nat
  invalid_links : Nat
  success_rate : Rat
  average_response_time : Rat
  error_breakdown : List (String × Nat)
deriving Repr, DecidableEq

/-- Embedding of `error_types[error] = error_types.get(error, 0) + 1` on an
insertion-ordered association list. -/
def bumpError (key : String) : List (String × Nat) → List (String × Nat)
  | [] => [(key, 1)]
  | (k, v) :: rest =>
    if k = key then (k, v + 1) :: rest else (k, v) :: bumpError key rest

/-- the error-breakdown loop of link_validator.py:309-312;
`result.error_message or "Unknown error"` treats `None` and `""` alike. -/
def errorTypesGo (m : List (String × Nat)) : List LinkValidationResult → List (String × Nat)
  | [] => m
  | r :: rs =>
    let key :=
      match r.error_message with
      | some e => if e ≠ "" then e else "Unknown error"
      | none => "Unknown error"
    errorTypesGo (bumpError key m) rs

/-- Python 3 `round(x, 3)` idealised over `Rat`: banker's rounding of
`x * 1000` (ties to even), divided back. -/
def roundHalfEven (q : Rat) : Int :=
  let f := Rat.floor q
  if q - f < mkRat 1 2 then f
  else if mkRat 1 2 < q - f then f + 1
  else if f % 2 = 0 then f else f + 1

/-- Embedding of `round(avg, 3)` (link_validator.py:322). -/
def pyRound3 (q : Rat) : Rat :=
  mkRat (roundHalfEven (q * 1000)) 1000

/-- Embedding of `LinkValidator.get_validation_stats` (link_validator.py:301-324):
empty input yields the empty dict (`none`); otherwise totals, success rate,
mean of the strictly positive response times (0 when there are none)
rounded to three decimals, and the per-message failure counts. -/
def get_validation_stats (results : List LinkValidationResult) : Option ValidationStats :=
  if results = [] then none
  else
    let valid_results := results.filter (fun r => r.is_valid)
    let invalid_results := results.filter (fun r => !r.is_valid)
    let error_types := errorTypesGo [] invalid_results
    let response_times := (results.map (fun r => r.response_time)).filter (fun t => decide (0 < t))
    let avg : Rat :=
      if response_times.length ≠ 0 then response_times.sum / (response_times.length : Rat)
      else 0
    some { total_links := results.length,
           valid_links := valid_results.length,
           invalid_links := invalid_results.length,
           success_rate := (valid_results.length : Rat) / (results.length : Rat) * 100,
           average_response_time := pyRound3 avg,
           error_breakdown := error_types }

/-! ## Concrete inputs used by the counterexamples and witnesses -/

/-- an element whose `data-asin` attribute is ten characters long but not
alphanumeric; the extractor's attribute path only checks the length. -/
def c1CexElement : Element :=
  { dataAsin := some "ab-cd-ef-g", titleText := some "Great Widget Deal" }

/-- an element whose identifier is found via the link-href fallback. -/
def c1WElement : Element :=
  { hrefs := ["https://www.amazon.com/dp/QWERTY1234?ref=deals"],
    titleText := some "Nice Lamp!!" }

/-- the record extracted from `c1WElement`. -/
def c1WProduct : Product :=
  { title := "Nice Lamp!!", price := "Price not available", discount := "",
    link := "https://www.amazon.com/dp/QWERTY1234", category := "home",
    asin := "QWERTY1234", rating := 0, review_count := 0,
    description := "Amazon product with great reviews and competitive pricing.",
    image_url := "" }

/-- the spec's fallback-correctness candidate with discount 5%, rating 3.0,
reviews 5. -/
def dealA : Product :=
  { title := "Deal A", discount := "5% off", asin := "AAAAAAAAA1",
    rating := 3, review_count := 5 }

/-- the spec's fallback-correctness candidate with rating 0, reviews 0. -/
def dealB : Product :=
  { title := "Deal B", asin := "BBBBBBBBB2", rating := 0, review_count := 0 }

/-- a candidate passing the strict tier (30% off, 4.5 stars, 100 reviews). -/
def dealS : Product :=
  { title := "Deal S", discount := "30% off", asin := "SSSSSSSSS1",
    rating := mkRat 9 2, review_count := 100 }

/-- a candidate attaining the maximal score: 25% discount, 4.5 stars,
1000 reviews, lightning badge, identifier fresh in the first-seen map. -/
def dealMax : Product :=
  { title := "Deal Max", discount := "25% lightning", asin := "A123456789",
    rating := mkRat 9 2, review_count := 1000 }

/-- the spec's score example: 25% discount, rating 4.6 (`mkRat 23 5`),
1200 reviews, a "Lightning Deal" badge in the discount display text. -/
def dealC4 : Product :=
  { title := "Deal C4", discount := "25% off Lightning Deal", asin := "C4C4C4C4C4",
    rating := mkRat 23 5, review_count := 1200 }

/-- a source that answers HTTP 429 on every attempt. -/
def net429 : Nat → AttemptOutcome := fun _ => AttemptOutcome.httpResponse 429 ""

/-- a parser stub (never reached on all-429 runs). -/
def parse0 : String → List Product := fun _ => []

/-- a batch task map where one URL raises and the rest succeed. -/
def runTaskW : String → Except String LinkValidationResult := fun u =>
  if u = "https://bad" then Except.error "boom"
  else Except.ok { url := u, is_valid := true, status_code := some 200 }

/-- a two-URL batch whose second task raises. -/
def urlsW : List String := ["https://www.amazon.com/dp/B000000001", "https://bad"]

/-- a well-formed marketplace URL carrying no affiliate tag. -/
def urlC9 : String := "https://www.amazon.com/dp/B00TESTASN"

/-- a probe sequence that times out once, then answers 405, and finally
200 (with a tag-free final URL) on the full-GET fallback — a success
reached through both a retry and the 405 fallback. -/
def netC9 : Nat → ProbeOutcome := fun k =>
  if k = 0 then ProbeOutcome.timedOut
  else if k = 1 then ProbeOutcome.response 405 "https://www.amazon.com/dp/B00TESTASN"
  else ProbeOutcome.response 200 "https://www.amazon.com/dp/B00TESTASN"

/-- a single failed validation result. -/
def r0 : LinkValidationResult :=
  { url := "u", is_valid := false, error_message := some "Request timeout" }

/-! ## Statistics helpers referenced by the claims -/

/-- mean of a list of rationals, 0 for the empty list (the shape used by
`get_validation_stats` for the positive response-time samples). -/
def ratMean (l : List Rat) : Rat :=
  if l.length ≠ 0 then l.sum / (l.length : Rat) else 0

/-- total of the per-message error counts. -/
def sumCounts (m : List (String × Nat)) : Nat :=
  (m.map Prod.snd).sum

/-! # Helper lemmas -/

theorem map_fst_pairing {α β : Type} (f : α → β) (l : List α) :
    (l.map (fun d => (d, f d))).map Prod.fst = l := by
  induction l <;> simp [*]

theorem scanMarkerAsin_shape (marker : List Char) :
    ∀ (s run : List Char), scanMarkerAsin marker s = some run →
      run.length = 10 ∧ run.all isAsinChar = true := by
  intro s
  induction s with
  | nil => intro run h; simp [scanMarkerAsin] at h
  | cons c cs ih =>
    intro run h
    rw [scanMarkerAsin.eq_def] at h
    simp only at h
    split at h
    · split at h
      · rename_i hcond
        simp only [Option.some.injEq] at h
        subst h
        simpa using hcond
      · exact ih run h
    · exact ih run h

theorem asinFromHrefs_shape :
    ∀ (hs : List String) (a : String), asinFromHrefs hs = some a →
      a.length = 10 ∧ a.data.all isAsinChar = true := by
  intro hs
  induction hs with
  | nil => intro a h; simp [asinFromHrefs] at h
  | cons u us ih =>
    intro a h
    rw [asinFromHrefs.eq_def] at h
    simp only at h
    split at h
    · rename_i run heq
      simp only [Option.some.injEq] at h
      subst h
      exact scanMarkerAsin_shape _ _ run heq
    · split at h
      · rename_i run heq
        simp only [Option.some.injEq] at h
        subst h
        exact scanMarkerAsin_shape _ _ run heq
      · exact ih a h

theorem extract_asin_fallback_shape (e : Element) (a : String)
    (hd : e.dataAsin = none ∨ e.dataAsin = some "")
    (h : extract_asin_candidate e = some a) :
    a.length = 10 ∧ a.data.all isAsinChar = true := by
  unfold extract_asin_candidate at h
  have hattr : (match e.dataAsin with
      | some a => if a = "" then none else some a
      | none => none) = (none : Option String) := by
    rcases hd with hd | hd <;> simp [hd]
  rw [hattr] at h
  simp only at h
  split at h
  · rename_i a2 heq
    simp only [Option.some.injEq] at h
    subst h
    exact asinFromHrefs_shape e.hrefs a2 heq
  · rw [Option.map_eq_some'] at h
    obtain ⟨run, hrun, hmk⟩ := h
    subst hmk
    exact scanMarkerAsin_shape _ _ run hrun

/-! # Claim C1 -/

/-- Claim C1 counterexample: an element whose structural `data-asin`
attribute is the ten-character, non-alphanumeric string "ab-cd-ef-g"
survives extraction with exactly that identifier — the attribute path never
checks alphanumeric shape, refuting the claim that every surviving
identifier is alphanumeric across all three fallbacks. -/
theorem C1_counterexample :
    (extract_product_data c1CexElement "https://www.amazon.com/gp/goldbox").map Product.asin
      = some "ab-cd-ef-g" ∧
    ("ab-cd-ef-g" : String).data.all Char.isAlphanum = false := by
  constructor
  · decide
  · decide

/-- Claim C1 (amended): every record surviving extraction has an identifier
of exactly 10 characters; when the identifier does not come from the
`data-asin` attribute (attribute absent or empty), it moreover consists of
10 characters from `[A-Z0-9]`.  The attribute path enforces only the
length. -/
theorem C1_identifier_shape :
    ∀ (e : Element) (src : String) (p : Product),
      extract_product_data e src = some p →
      p.asin.length = 10 ∧
        ((e.dataAsin = none ∨ e.dataAsin = some "") →
          p.asin.data.all isAsinChar = true) := by
  intro e src p h
  unfold extract_product_data at h
  split at h
  · exact absurd h (by simp)
  · rename_i asin heq
    split at h
    · exact absurd h (by simp)
    · rename_i hcond
      push_neg at hcond
      split at h
      · exact absurd h (by simp)
      · rename_i title hteq
        simp only [Option.some.injEq] at h
        subst h
        refine ⟨hcond.2, fun hd => ?_⟩
        exact (extract_asin_fallback_shape e asin hd heq).2

/-- Claim C1 witness: the identifier extracted from `c1WElement` through
the link-href fallback has the amended shape. -/
theorem C1_identifier_witness :
    c1WProduct.asin.length = 10 ∧ c1WProduct.asin.data.all isAsinChar = true :=
  ⟨(C1_identifier_shape c1WElement "https://www.amazon.com/deals" c1WProduct (by decide)).1,
   (C1_identifier_shape c1WElement "https://www.amazon.com/deals" c1WProduct (by decide)).2
     (Or.inl rfl)⟩

/-! # Claim C6 -/

theorem dedup_go_idem (seen : List String) (l : List Product) :
    dedup_deals_go seen (dedup_deals_go seen l) = dedup_deals_go seen l := by
  induction l generalizing seen with
  | nil => simp [dedup_deals_go]
  | cons d ds ih =>
    by_cases h : d.asin ≠ "" ∧ d.asin ∉ seen
    · rw [dedup_deals_go, if_pos h, dedup_deals_go, if_pos h, ih]
    · rw [dedup_deals_go, if_neg h, ih]

/-- Claim C6: deduplication is idempotent — applying the dedup pass
(collapse by identifier, keep first occurrence, preserve order) to its own
output returns the same list in the same order. -/
theorem C6_dedup_idempotent :
    ∀ l : List Product, dedup_deals (dedup_deals l) = dedup_deals l :=
  fun l => dedup_go_idem [] l

/-! # Claim C2 -/

/-- Claim C2 counterexample: on the input holding both the spec's
fallback-correctness candidates — discount 5%, rating 3.0, reviews 5
alongside rating 0, reviews 0 — the tiered filter does *not* return the
empty list: the rating-3.0 candidate passes the last-resort tier
(`rating > 0`), so the result is exactly that candidate. -/
theorem C2_counterexample :
    tiered_filter [dealA, dealB] = [dealA] ∧ tiered_filter [dealA, dealB] ≠ [] := by
  constructor
  · decide
  · decide

theorem tiered_filter_eq (deals : List Product) :
    tiered_filter deals =
      if filter_catchy_deals deals ≠ [] then filter_catchy_deals deals
      else if deals.filter relaxedPred ≠ [] then deals.filter relaxedPred
      else deals.filter lastResortPred := by
  simp only [tiered_filter]
  by_cases h0 : deals.length = 0
  · have hnil : deals = [] := List.length_eq_zero.mp h0
    subst hnil
    simp [filter_catchy_deals]
  · rw [if_neg h0]
    by_cases hc : (filter_catchy_deals deals).length = 0
    · have hc2 : filter_catchy_deals deals = [] := List.length_eq_zero.mp hc
      rw [if_pos (And.intro hc (Nat.pos_of_ne_zero h0)), if_neg (not_not.mpr hc2)]
      by_cases hr : (deals.filter relaxedPred).length = 0
      · have hr2 : deals.filter relaxedPred = [] := List.length_eq_zero.mp hr
        rw [if_neg (show ¬ (deals.filter relaxedPred).length ≠ 0 from not_not.mpr hr),
          if_neg (not_not.mpr hr2)]
        by_cases hl : (deals.filter lastResortPred).length = 0
        · rw [if_pos hl]
          exact (List.length_eq_zero.mp hl).symm
        · rw [if_neg hl]
      · rw [if_pos (show (deals.filter relaxedPred).length ≠ 0 from hr), if_neg hr,
          if_pos (show deals.filter relaxedPred ≠ [] from
            fun he => hr (by rw [he]; rfl))]
    · have hc2 : filter_catchy_deals deals ≠ [] :=
        fun he => hc (by rw [he]; rfl)
      rw [if_neg (show ¬ ((filter_catchy_deals deals).length = 0 ∧ 0 < deals.length) from
          fun hx => hc hx.1), if_neg hc, if_pos hc2]

/-- Claim C2 (amended): the quality filter evaluates Strict, Relaxed and
Last-resort strictly in order and returns the first non-empty tier (the
empty list when every tier is empty).  For the input containing the
candidate with discount 5%, rating 3.0, reviews 5 together with the
candidate with rating 0, reviews 0, the result is the single rating-3.0
candidate, selected by the last-resort tier; only for the input containing
just the rating-0, reviews-0 candidate is the result empty. -/
theorem C2_tier_order :
    (∀ deals : List Product,
      (filter_catchy_deals deals ≠ [] → tiered_filter deals = filter_catchy_deals deals) ∧
      (filter_catchy_deals deals = [] → deals.filter relaxedPred ≠ [] →
        tiered_filter deals = deals.filter relaxedPred) ∧
      (filter_catchy_deals deals = [] → deals.filter relaxedPred = [] →
        tiered_filter deals = deals.filter lastResortPred)) ∧
    tiered_filter [dealA, dealB] = [dealA] ∧
    tiered_filter [dealB] = [] := by
  refine ⟨fun deals => ⟨?_, ?_, ?_⟩, by decide, by decide⟩
  · intro h1
    rw [tiered_filter_eq, if_pos h1]
  · intro h1 h2
    rw [tiered_filter_eq, if_neg (not_not.mpr h1), if_pos h2]
  · intro h1 h2
    rw [tiered_filter_eq, if_neg (not_not.mpr h1), if_neg (not_not.mpr h2)]

/-- Claim C2 witness: a strict-tier-passing input is returned by the strict
tier itself. -/
theorem C2_tier_order_witness :
    filter_catchy_deals [dealS] ≠ [] ∧ tiered_filter [dealS] = filter_catchy_deals [dealS] :=
  ⟨by decide, (C2_tier_order.1 [dealS]).1 (by decide)⟩

/-! # Claim C3 -/

theorem score_discount_le (d : Product) : score_discount d ≤ 50 :=
  Nat.min_le_right _ _

theorem score_rating_le (d : Product) : score_rating d ≤ 30 := by
  unfold score_rating
  repeat' split
  all_goals omega

theorem score_reviews_le (d : Product) : score_reviews d ≤ 20 := by
  unfold score_reviews
  repeat' split
  all_goals omega

theorem score_freshness_le (ts : List (String × Int)) (now : Int) (d : Product) :
    score_freshness ts now d ≤ 10 := by
  unfold score_freshness
  repeat' split
  all_goals omega

theorem score_badge_le (d : Product) : score_badge d ≤ 5 := by
  unfold score_badge
  repeat' split
  all_goals omega

theorem score_deal_le (ts : List (String × Int)) (now : Int) (d : Product) :
    score_deal ts now d ≤ 115 := by
  have h1 := score_discount_le d
  have h2 := score_rating_le d
  have h3 := score_reviews_le d
  have h4 := score_freshness_le ts now d
  have h5 := score_badge_le d
  unfold score_deal
  omega

/-- Claim C3 counterexample: no candidate, under any first-seen-map state,
attains the claimed maximum score of 125 — the components cap at
50 + 30 + 20 + 10 + 5 = 115. -/
theorem C3_counterexample :
    ¬ ∃ (ts : List (String × Int)) (now : Int) (d : Product),
        score_deal ts now d = 125 := by
  rintro ⟨ts, now, d, h⟩
  have := score_deal_le ts now d
  omega

/-- Claim C3 (amended): for every candidate and first-seen-map state the
computed score lies in [0, 115] (it is a sum of non-negative components,
represented as `Nat`), and 115 is attained: a 25%-discount lightning deal
with rating 4.5, 1000 reviews and a just-seen identifier scores exactly
115. -/
theorem C3_score_bound :
    (∀ (ts : List (String × Int)) (now : Int) (d : Product), score_deal ts now d ≤ 115) ∧
    score_deal [("A123456789", 0)] 0 dealMax = 115 :=
  ⟨score_deal_le, by decide⟩

/-! # Claim C4 -/

/-- Claim C4: the spec's score example — discount 25%, rating 4.6, 1200
reviews, "Lightning Deal" badge text, identifier unknown to the first-seen
map — scores 105, decomposed as 50 (discount, capped) + 30 (rating band) +
20 (review band) + 0 (freshness) + 5 (badge bonus). -/
theorem C4_score_example :
    dealC4.rating = (4.6 : Rat) ∧
    score_discount dealC4 = 50 ∧
    score_rating dealC4 = 30 ∧
    score_reviews dealC4 = 20 ∧
    score_freshness [] 0 dealC4 = 0 ∧
    score_badge dealC4 = 5 ∧
    score_deal [] 0 dealC4 = 105 := by
  refine ⟨?_, by decide, by decide, by decide, by decide, by decide, by decide⟩
  show mkRat 23 5 = (4.6 : Rat)
  norm_num

/-! # Claim C5 -/

theorem rankLe_trans (a b c : Product × Nat)
    (h1 : decide (b.2 ≤ a.2) = true) (h2 : decide (c.2 ≤ b.2) = true) :
    decide (c.2 ≤ a.2) = true := by
  simp only [decide_eq_true_eq] at *
  omega

theorem rankLe_total (a b : Product × Nat) :
    (decide (b.2 ≤ a.2) || decide (a.2 ≤ b.2)) = true := by
  simp only [Bool.or_eq_true, decide_eq_true_eq]
  omega

/-- a stable sort leaves every class of mutually `le`-equivalent elements
(as selected by `p`) in input order. -/
theorem mergeSort_filter_stable {α : Type} (le : α → α → Bool)
    (htrans : ∀ (a b c : α), le a b → le b c → le a c)
    (htotal : ∀ (a b : α), le a b || le b a)
    (p : α → Bool) (hp : ∀ a b, p a → p b → le a b)
    (l : List α) : (l.mergeSort le).filter p = l.filter p := by
  have hsub : List.Sublist (l.filter p) (l.mergeSort le) := by
    apply List.sublist_mergeSort htrans htotal
    · exact List.pairwise_of_forall_mem_list
        (fun a ha b hb => hp a b (List.of_mem_filter ha) (List.of_mem_filter hb))
    · exact List.filter_sublist l
  have hsub2 : List.Sublist (l.filter p) ((l.mergeSort le).filter p) := by
    have h2 := hsub.filter p
    rwa [List.filter_filter, List.filter_congr
      (fun x _ => by rw [Bool.and_self])] at h2
  have hlen : ((l.mergeSort le).filter p).length = (l.filter p).length :=
    ((List.mergeSort_perm l le).filter p).length_eq
  exact (hsub2.eq_of_length hlen.symm).symm

theorem rank_deals_perm (ts : List (String × Int)) (now : Int) (deals : List Product) :
    List.Perm (rank_deals ts now deals) deals := by
  unfold rank_deals
  have h1 := List.mergeSort_perm
    (deals.map (fun d => (d, score_deal ts now d))) (fun a b => decide (b.2 ≤ a.2))
  have h2 := h1.map Prod.fst
  rwa [map_fst_pairing] at h2

theorem mem_scored_snd (ts : List (String × Int)) (now : Int) (deals : List Product)
    (x : Product × Nat) (hx : x ∈ deals.map (fun d => (d, score_deal ts now d))) :
    x.2 = score_deal ts now x.1 := by
  rw [List.mem_map] at hx
  obtain ⟨d, _, rfl⟩ := hx
  rfl

/-- Claim C5: the ranker returns the filtered records sorted in descending
order of computed score (a permutation of its input), and the sort is
stable: for every score value, the records carrying that score appear in
the output in exactly their input order. -/
theorem C5_stable_ranking :
    ∀ (ts : List (String × Int)) (now : Int) (deals : List Product),
      List.Perm (rank_deals ts now deals) deals ∧
      (rank_deals ts now deals).Pairwise
        (fun a b => score_deal ts now b ≤ score_deal ts now a) ∧
      ∀ s : Nat,
        (rank_deals ts now deals).filter (fun d => decide (score_deal ts now d = s)) =
          deals.filter (fun d => decide (score_deal ts now d = s)) := by
  intro ts now deals
  refine ⟨rank_deals_perm ts now deals, ?_, ?_⟩
  · unfold rank_deals
    rw [List.pairwise_map]
    have hsorted := List.sorted_mergeSort rankLe_trans rankLe_total
      (deals.map (fun d => (d, score_deal ts now d)))
    refine hsorted.imp_of_mem ?_
    intro a b ha hb hle
    rw [List.mem_mergeSort] at ha hb
    have ha2 := mem_scored_snd ts now deals a ha
    have hb2 := mem_scored_snd ts now deals b hb
    simp only [decide_eq_true_eq] at hle
    rw [← ha2, ← hb2]
    exact hle
  · intro s
    unfold rank_deals
    rw [List.filter_map]
    have hcongr1 : ∀ (ml : List (Product × Nat)),
        (∀ x ∈ ml, x.2 = score_deal ts now x.1) →
        ml.filter ((fun d => decide (score_deal ts now d = s)) ∘ Prod.fst) =
          ml.filter (fun x => decide (x.2 = s)) := by
      intro ml hml
      apply List.filter_congr
      intro x hx
      simp only [Function.comp_apply, ← hml x hx]
    rw [hcongr1 _ (fun x hx => mem_scored_snd ts now deals x (List.mem_mergeSort.mp hx)),
      mergeSort_filter_stable _ rankLe_trans rankLe_total _
        (fun a b hpa hpb => by
          simp only [decide_eq_true_eq] at *
          omega),
      ← hcongr1 _ (mem_scored_snd ts now deals),
      ← List.filter_map, map_fst_pairing]

/-! # Claim C7 -/

theorem scrape_go_attempts_le (net : Nat → AttemptOutcome) (parse : String → List Product) :
    ∀ (fuel attempt delay : Nat) (log : List (SleepTag × Nat)),
      (scrape_source_go net parse attempt fuel delay log).attempts ≤ attempt + fuel := by
  intro fuel
  induction fuel with
  | zero =>
    intro attempt delay log
    simp [scrape_source_go]
  | succ f ih =>
    intro attempt delay log
    rw [scrape_source_go]
    cases net attempt with
    | httpResponse status body =>
      simp only
      repeat' split
      all_goals first
        | (exact Nat.le_trans (ih _ _ _) (by omega))
        | (simp only []; omega)
    | timedOut =>
      simp only
      split
      · exact Nat.le_trans (ih _ _ _) (by omega)
      · simp only []
        omega
    | connFailed =>
      simp only
      split
      · exact Nat.le_trans (ih _ _ _) (by omega)
      · simp only []
        omega

theorem scrape_go_429_cap (net : Nat → AttemptOutcome) (parse : String → List Product) :
    ∀ (fuel attempt delay : Nat) (log : List (SleepTag × Nat)),
      (∀ q ∈ log, q.1 = SleepTag.rateLimited → q.2 ≤ 60) →
      ∀ q ∈ (scrape_source_go net parse attempt fuel delay log).sleeps,
        q.1 = SleepTag.rateLimited → q.2 ≤ 60 := by
  intro fuel
  induction fuel with
  | zero =>
    intro attempt delay log hlog q hq
    simp only [scrape_source_go] at hq
    exact hlog q (List.mem_reverse.mp hq)
  | succ f ih =>
    intro attempt delay log hlog q hq
    have hkeep : ∀ (tag : SleepTag) (d : Nat),
        (tag = SleepTag.rateLimited → d ≤ 60) →
        ∀ q2 ∈ (tag, d) :: log, q2.1 = SleepTag.rateLimited → q2.2 ≤ 60 := by
      intro tag d hd q2 hq2 htag
      rcases List.mem_cons.mp hq2 with h | h
      · subst h
        exact hd htag
      · exact hlog q2 h htag
    rw [scrape_source_go] at hq
    revert hq
    cases net attempt with
    | httpResponse status body =>
      simp only
      repeat' split
      all_goals intro hq
      all_goals first
        | (exact ih _ _ _ (hkeep _ _ (fun _ => Nat.min_le_right _ _)) q hq)
        | (exact ih _ _ _ (hkeep _ _ (fun hc => by cases hc)) q hq)
        | (exact hlog q (List.mem_reverse.mp hq))
    | timedOut =>
      simp only
      split
      all_goals intro hq
      · exact ih _ _ _ (hkeep _ _ (fun hc => by cases hc)) q hq
      · exact hlog q (List.mem_reverse.mp hq)
    | connFailed =>
      simp only
      split
      all_goals intro hq
      · exact ih _ _ _ (hkeep _ _ (fun hc => by cases hc)) q hq
      · exact hlog q (List.mem_reverse.mp hq)

/-- Claim C7 counterexample: on a source answering 429 on every attempt,
the delays actually slept before the two retries are 10 s and 20 s — not
the claimed 5 s and 10 s — because the code doubles `retry_delay` *before*
sleeping. -/
theorem C7_counterexample :
    (scrape_source net429 parse0).sleeps.map Prod.snd = [10, 20] ∧
    (scrape_source net429 parse0).sleeps.map Prod.snd ≠ [5, 10] := by
  constructor
  · decide
  · decide

/-- Claim C7 (amended): the fetcher makes at most 3 attempts per URL; on
HTTP 429 the backoff delay is doubled (starting from the initial 5 s and
capped at 60 s) *before* the sleep, so every 429-triggered sleep is at most
60 s and an all-429 run sleeps 10 s and then 20 s. -/
theorem C7_retry_backoff :
    (∀ (net : Nat → AttemptOutcome) (parse : String → List Product),
      (scrape_source net parse).attempts ≤ 3) ∧
    (∀ (net : Nat → AttemptOutcome) (parse : String → List Product)
       (q : SleepTag × Nat), q ∈ (scrape_source net parse).sleeps →
        q.1 = SleepTag.rateLimited → q.2 ≤ 60) ∧
    (scrape_source net429 parse0).sleeps =
      [(SleepTag.rateLimited, 10), (SleepTag.rateLimited, 20)] :=
  ⟨fun net parse => scrape_go_attempts_le net parse 3 0 5 [],
   fun net parse q hq => scrape_go_429_cap net parse 3 0 5 [] (by simp) q hq,
   by decide⟩

/-- Claim C7 witness: the first 429-triggered sleep of the all-429 run is
in the log and respects the 60 s cap. -/
theorem C7_retry_backoff_witness :
    (SleepTag.rateLimited, 10) ∈ (scrape_source net429 parse0).sleeps ∧ (10 : Nat) ≤ 60 :=
  ⟨by decide, C7_retry_backoff.2.1 net429 parse0 (SleepTag.rateLimited, 10) (by decide) rfl⟩

/-! # Claim C8 -/

theorem gatherConvert_eq_map (runTask : String → Except String LinkValidationResult)
    (urls : List String) :
    gatherConvert runTask urls = urls.map (fun u => convertGathered u (runTask u)) := by
  induction urls with
  | nil => rfl
  | cons u us ih => simp [gatherConvert, ih]

theorem validate_links_batch_eq_map (runTask : String → Except String LinkValidationResult)
    (urls : List String) :
    validate_links_batch runTask urls = urls.map (fun u => convertGathered u (runTask u)) := by
  unfold validate_links_batch
  by_cases h : urls = []
  · subst h; rfl
  · rw [if_neg h, gatherConvert_eq_map]

/-- Claim C8: batch link validation returns exactly one result per input
URL, positionally — the i-th result is determined by the i-th URL alone —
and a task that raises is converted into a failed entry (`is_valid = false`
with an "Exception: …" message) for that URL only, leaving every other
entry what its own validation produced. -/
theorem C8_batch_isolation :
    ∀ (runTask : String → Except String LinkValidationResult) (urls : List String),
      (validate_links_batch runTask urls).length = urls.length ∧
      (∀ (i : Nat) (h : i < urls.length) (h2 : i < (validate_links_batch runTask urls).length),
        (validate_links_batch runTask urls).get ⟨i, h2⟩ =
          convertGathered (urls.get ⟨i, h⟩) (runTask (urls.get ⟨i, h⟩))) ∧
      (∀ (i : Nat) (h : i < urls.length) (h2 : i < (validate_links_batch runTask urls).length)
         (e : String),
        runTask (urls.get ⟨i, h⟩) = Except.error e →
        ((validate_links_batch runTask urls).get ⟨i, h2⟩).url = urls.get ⟨i, h⟩ ∧
        ((validate_links_batch runTask urls).get ⟨i, h2⟩).is_valid = false ∧
        ((validate_links_batch runTask urls).get ⟨i, h2⟩).error_message =
          some ("Exception: " ++ e)) := by
  intro runTask urls
  have hlen : (validate_links_batch runTask urls).length = urls.length := by
    rw [validate_links_batch_eq_map, List.length_map]
  have hget : ∀ (i : Nat) (h : i < urls.length) (h2 : i < (validate_links_batch runTask urls).length),
      (validate_links_batch runTask urls).get ⟨i, h2⟩ =
        convertGathered (urls.get ⟨i, h⟩) (runTask (urls.get ⟨i, h⟩)) := by
    intro i h h2
    have h3 := List.get_of_eq (validate_links_batch_eq_map runTask urls) ⟨i, h2⟩
    rw [h3]
    simp [List.get_eq_getElem, List.getElem_map]
  refine ⟨hlen, hget, ?_⟩
  intro i h h2 e herr
  rw [hget i h h2, herr]
  exact ⟨rfl, rfl, rfl⟩

/-- Claim C8 witness: in the two-URL batch whose second task raises
"boom", the second entry is the converted failure for its own URL. -/
theorem C8_batch_isolation_witness :
    ((validate_links_batch runTaskW urlsW).get ⟨1, by decide⟩).url = "https://bad" ∧
    ((validate_links_batch runTaskW urlsW).get ⟨1, by decide⟩).is_valid = false ∧
    ((validate_links_batch runTaskW urlsW).get ⟨1, by decide⟩).error_message =
      some ("Exception: " ++ "boom") :=
  (C8_batch_isolation runTaskW urlsW).2.2 1 (by decide) (by decide) "boom" rfl

/-! # Claim C9 -/

theorem validate_link_go_of_resolution (net : Nat → ProbeOutcome) (url : String) :
    ∀ (fuel k status : Nat) (finalUrl : String),
      probeResolution net k fuel = some (status, finalUrl) →
      validate_link_go net url k fuel = mkValidResult url status finalUrl := by
  intro fuel
  induction fuel with
  | zero =>
    intro k status finalUrl h
    simp [probeResolution] at h
  | succ f ih =>
    intro k status finalUrl h
    rw [probeResolution] at h
    rw [validate_link_go]
    cases hnet : net k with
    | response st fu =>
      rw [hnet] at h
      simp only at h ⊢
      by_cases h1 : st = 200 ∨ st = 206 ∨ st = 416
      · rw [if_pos h1] at h ⊢
        simp only [Option.some.injEq, Prod.mk.injEq] at h
        rw [h.1, h.2]
      · rw [if_neg h1] at h ⊢
        by_cases h2 : st = 405
        · rw [if_pos h2] at h ⊢
          cases hnet2 : net (k + 1) with
          | response st2 fu2 =>
            rw [hnet2] at h
            simp only at h ⊢
            by_cases h3 : st2 = 200
            · rw [if_pos h3] at h ⊢
              simp only [Option.some.injEq, Prod.mk.injEq] at h
              rw [← h.1, ← h.2]
            · rw [if_neg h3] at h
              exact absurd h (by simp)
          | timedOut =>
            rw [hnet2] at h
            simp only at h ⊢
            by_cases hf : 0 < f
            · rw [if_pos hf] at h ⊢
              exact ih _ _ _ h
            · rw [if_neg hf] at h
              exact absurd h (by simp)
          | clientFailed e =>
            rw [hnet2] at h
            simp only at h ⊢
            by_cases hf : 0 < f
            · rw [if_pos hf] at h ⊢
              exact ih _ _ _ h
            · rw [if_neg hf] at h
              exact absurd h (by simp)
        · rw [if_neg h2] at h
          exact absurd h (by simp)
    | timedOut =>
      rw [hnet] at h
      simp only at h ⊢
      by_cases hf : 0 < f
      · rw [if_pos hf] at h ⊢
        exact ih _ _ _ h
      · rw [if_neg hf] at h
        exact absurd h (by simp)
    | clientFailed e =>
      rw [hnet] at h
      simp only at h ⊢
      by_cases hf : 0 < f
      · rw [if_pos hf] at h ⊢
        exact ih _ _ _ h
      · rw [if_neg hf] at h
        exact absurd h (by simp)

/-- Claim C9: affiliate-tag verification is non-fatal — for every URL whose
probe succeeds, i.e. whose retry loop resolves to a success (a direct
response with status 200, 206 or 416 on whichever attempt the loop reaches,
or a 200 answer to the 405 full-GET fallback, possibly after
timeout/transport-error retries), the validator reports `is_valid = true`
and the resolved status, whatever affiliate tag is configured, even when
tag verification on the final URL fails (tag missing or different); the tag
check never flips the result. -/
theorem C9_tag_nonfatal :
    ∀ (net : Nat → ProbeOutcome) (url finalUrl tag : String)
      (maxRetries status : Nat),
      is_valid_url_format url = true →
      is_amazon_link url = true →
      probeResolution net 0 (maxRetries + 1) = some (status, finalUrl) →
      (verify_affiliate_tag finalUrl tag).1 = false →
      (validate_link net (some tag) maxRetries url).is_valid = true ∧
      (validate_link net (some tag) maxRetries url).status_code = some status := by
  intro net url finalUrl tag maxRetries status h1 h2 hres _htag
  unfold validate_link
  rw [h1, h2]
  simp only [Bool.not_true, Bool.false_eq_true, if_false]
  rw [validate_link_go_of_resolution net url (maxRetries + 1) 0 status finalUrl hres]
  exact ⟨rfl, rfl⟩

/-- Claim C9 witness: a marketplace URL whose probe sequence times out
once, then answers 405 and succeeds with 200 on the full-GET fallback —
the final URL carrying no `tag` parameter — still validates as
`is_valid = true` while the tag check for the configured tag "mytag-20"
fails. -/
theorem C9_tag_nonfatal_witness :
    probeResolution netC9 0 3 = some (200, "https://www.amazon.com/dp/B00TESTASN") ∧
    (verify_affiliate_tag "https://www.amazon.com/dp/B00TESTASN" "mytag-20").1 = false ∧
    (validate_link netC9 (some "mytag-20") 2 urlC9).is_valid = true :=
  ⟨by decide, by decide,
   (C9_tag_nonfatal netC9 urlC9 "https://www.amazon.com/dp/B00TESTASN" "mytag-20" 2 200
     (by decide) (by decide) (by decide) (by decide)).1⟩

/-! # Claim C10 -/

theorem sumCounts_bumpError (key : String) :
    ∀ m : List (String × Nat), sumCounts (bumpError key m) = sumCounts m + 1 := by
  intro m
  induction m with
  | nil => rfl
  | cons kv rest ih =>
    obtain ⟨k, v⟩ := kv
    by_cases h : k = key
    · rw [bumpError, if_pos h]
      simp only [sumCounts, List.map_cons, List.sum_cons]
      omega
    · rw [bumpError, if_neg h]
      simp only [sumCounts, List.map_cons, List.sum_cons] at *
      omega

theorem sumCounts_errorTypesGo :
    ∀ (rs : List LinkValidationResult) (m : List (String × Nat)),
      sumCounts (errorTypesGo m rs) = sumCounts m + rs.length := by
  intro rs
  induction rs with
  | nil => intro m; simp [errorTypesGo]
  | cons r rest ih =>
    intro m
    rw [errorTypesGo]
    rw [ih, sumCounts_bumpError]
    simp only [List.length_cons]
    omega

/-- Claim C10: on the empty result list the summary statistics are the
empty mapping (`none`), not a zeroed record; on every non-empty list the
returned record has `total_links = N`, `valid_links + invalid_links = N`,
`success_rate = valid / N × 100`, `average_response_time` the mean of the
strictly positive response-time samples (0 when there are none) rounded to
three decimals, and error-breakdown counts summing to the number of
invalid results. -/
theorem C10_stats_shape :
    get_validation_stats [] = none ∧
    ∀ results : List LinkValidationResult, results ≠ [] →
      (get_validation_stats results).map ValidationStats.total_links =
        some results.length ∧
      (get_validation_stats results).map (fun s => s.valid_links + s.invalid_links) =
        some results.length ∧
      (get_validation_stats results).map ValidationStats.success_rate =
        some (((results.filter (fun r => r.is_valid)).length : Rat) /
          (results.length : Rat) * 100) ∧
      (get_validation_stats results).map ValidationStats.average_response_time =
        some (pyRound3 (ratMean
          ((results.map (fun r => r.response_time)).filter (fun t => decide (0 < t))))) ∧
      (get_validation_stats results).map (fun s => sumCounts s.error_breakdown) =
        some (results.filter (fun r => !r.is_valid)).length := by
  constructor
  · rfl
  · intro results hne
    rw [get_validation_stats, if_neg hne]
    refine ⟨rfl, ?_, rfl, ?_, ?_⟩
    · simp only [Option.map_some', Option.some.injEq]
      have := List.length_eq_length_filter_add (l := results) (fun r => r.is_valid)
      omega
    · simp only [Option.map_some', Option.some.injEq, ratMean]
    · simp only [Option.map_some', Option.some.injEq]
      rw [sumCounts_errorTypesGo]
      simp [sumCounts]

/-- Claim C10 witness: the statistics of the single-result list `[r0]`
(one invalid result) instantiate the non-empty case. -/
theorem C10_stats_shape_witness :
    (get_validation_stats [r0]).map ValidationStats.total_links = some 1 ∧
    (get_validation_stats [r0]).map (fun s => s.valid_links + s.invalid_links) = some 1 ∧
    (get_validation_stats [r0]).map (fun s => sumCounts s.error_breakdown) = some 1 := by
  have h := C10_stats_shape.2 [r0] (by decide)
  exact ⟨h.1, h.2.1, h.2.2.2.2⟩

end AmazonBot
